import Mathlib

/-!
Shallow embedding of the worker supervision and accept-arbitration core of
the kore server (src/worker.c), together with theorems settling the frozen
claims about its specification.

Machine integers are modelled by `Nat` (no arithmetic in the embedded code
comes near a wrap-around for the inputs considered), the volatile lock word
by `Bool` (the only writes the code performs are compare-and-swaps between
0 and 1 and the initial zeroing), and the sentinel `KORE_WAIT_INFINITE` by
`Option.none`.
-/

namespace Kore

/-- Constant `WORKER_SOLO_COUNT` from worker.c line 66: when the total
worker count equals this, lock arbitration is skipped. -/
def WORKER_SOLO_COUNT : Nat := 3

/-- Modelled from the spec: the worker record table reserves two slots
(key-manager and ACME) ahead of the network-worker slots, so network
workers start at slot index 2.  The header `kore.h`, which defines
`KORE_WORKER_BASE`, is not among the sources. -/
def KORE_WORKER_BASE : Nat := 2

/-- Modelled from the spec: slot index reserved for the key-manager
sibling (`kore.h` is not among the sources). -/
def KORE_WORKER_KEYMGR_IDX : Nat := 0

/-- Modelled from the spec: slot index reserved for the ACME sibling. -/
def KORE_WORKER_ACME_IDX : Nat := 1

/-- Modelled from the spec: reserved logical worker id naming the
key-manager sibling; only its distinctness from network-worker ids and
from the ACME id matters. -/
def KORE_WORKER_KEYMGR : Nat := 2000

/-- Modelled from the spec: reserved logical worker id naming the ACME
sibling. -/
def KORE_WORKER_ACME : Nat := 2001

/-- Modelled from the spec: width (excluding the terminating byte) of the
fixed domain-name slot in a keymgr message; the domain field of
`struct kore_x509_msg` holds `KORE_DOMAINNAME_LEN + 1` bytes and the code
checks the byte at this index for NUL. -/
def KORE_DOMAINNAME_LEN : Nat := 255

/-- Modelled from the spec: byte size of the fixed keymgr message header
`struct kore_x509_msg` (the fixed-width domain slot plus the declared
payload length field); its exact value is irrelevant to the claims. -/
def X509_MSG_HDR_SIZE : Nat := 264

/-- Modelled from the spec: message id for a certificate payload
(`kore.h` is not among the sources; distinct arbitrary values). -/
def KORE_MSG_CERTIFICATE : Nat := 4

/-- Modelled from the spec: message id for a CRL payload. -/
def KORE_MSG_CRL : Nat := 6

/-- Modelled from the spec: message id installing a TLS-ALPN-01 challenge
certificate. -/
def KORE_ACME_CHALLENGE_SET_CERT : Nat := 7

/-- Modelled from the spec: message id clearing a TLS-ALPN-01 challenge
certificate. -/
def KORE_ACME_CHALLENGE_CLEAR_CERT : Nat := 8

/-- The shared lock region `struct wlock` (worker.c 72-75): the lock word
(`false` = 0 = free, `true` = 1 = held) and the pid of the holder. -/
structure WLock where
  lock : Bool
  current : Nat
deriving Repr, DecidableEq

/-- Process-local view of a worker used by the accept-lock operations:
its advisory `has_lock` flag and its pid. -/
structure WorkerLocal where
  has_lock : Bool
  pid : Nat
deriving Repr, DecidableEq

/-- `worker_trylock` (worker.c 821-830): compare-and-swap the lock word
from 0 to 1; on success record the caller's pid in `current` and return 1,
otherwise return 0 without side effects. -/
def worker_trylock (pid : Nat) (lk : WLock) : Bool × WLock :=
  if lk.lock = false then (true, { lock := true, current := pid })
  else (false, lk)

/-- `worker_unlock` (worker.c 832-838): write 0 to `current`, then
compare-and-swap the lock word from 1 to 0; the second component is true
when the CAS failed and the soft "was not locked" line is logged. -/
def worker_unlock (lk : WLock) : WLock × Bool :=
  let lk1 : WLock := { lk with current := 0 }
  if lk1.lock = true then ({ lk1 with lock := false }, false)
  else (lk1, true)

/-- Outcome of `worker_acceptlock_obtain`: the return value, the updated
worker, the updated lock region, and whether `worker_trylock` (the CAS)
was called at all. -/
structure ObtainResult where
  r : Bool
  worker : WorkerLocal
  lock : WLock
  casAttempted : Bool
deriving Repr, DecidableEq

/-- `worker_acceptlock_obtain` (worker.c 788-819): return 1 at once if the
lock is already held; set `has_lock` and return 1 without any CAS when the
total worker count equals `WORKER_SOLO_COUNT` or locking is disabled;
refuse when the connection or request ceiling is reached; otherwise
attempt the CAS via `worker_trylock`. -/
def worker_acceptlock_obtain (worker_count : Nat) (worker_no_lock : Bool)
    (w : WorkerLocal) (lk : WLock)
    (worker_active_connections worker_max_connections : Nat)
    (http_request_count http_request_limit : Nat) : ObtainResult :=
  if w.has_lock = true then
    { r := true, worker := w, lock := lk, casAttempted := false }
  else if worker_count = WORKER_SOLO_COUNT ∨ worker_no_lock = true then
    { r := true, worker := { w with has_lock := true }, lock := lk,
      casAttempted := false }
  else if worker_max_connections ≤ worker_active_connections then
    { r := false, worker := w, lock := lk, casAttempted := false }
  else if http_request_limit ≤ http_request_count then
    { r := false, worker := w, lock := lk, casAttempted := false }
  else
    let t := worker_trylock w.pid lk
    if t.1 = true then
      { r := true, worker := { w with has_lock := true }, lock := t.2,
        casAttempted := true }
    else
      { r := false, worker := w, lock := t.2, casAttempted := true }

/-- Outcome of `worker_acceptlock_release`: updated worker and lock
region, whether `ACCEPT_AVAILABLE` was broadcast to all workers, and
whether the soft unlock log line fired. -/
structure ReleaseResult where
  worker : WorkerLocal
  lock : WLock
  broadcastAcceptAvailable : Bool
  unlockSoftLog : Bool
deriving Repr, DecidableEq

/-- `worker_acceptlock_release` (worker.c 760-786): do nothing in solo or
no-lock mode or when the lock is not held; keep the lock while both the
connection count and the request count are below their ceilings;
otherwise unlock, clear `has_lock` and broadcast `ACCEPT_AVAILABLE`. -/
def worker_acceptlock_release (worker_count : Nat) (worker_no_lock : Bool)
    (w : WorkerLocal) (lk : WLock)
    (worker_active_connections worker_max_connections : Nat)
    (http_request_count http_request_limit : Nat) : ReleaseResult :=
  if worker_count = WORKER_SOLO_COUNT ∨ worker_no_lock = true then
    { worker := w, lock := lk, broadcastAcceptAvailable := false,
      unlockSoftLog := false }
  else if w.has_lock ≠ true then
    { worker := w, lock := lk, broadcastAcceptAvailable := false,
      unlockSoftLog := false }
  else if worker_active_connections < worker_max_connections ∧
      http_request_count < http_request_limit then
    { worker := w, lock := lk, broadcastAcceptAvailable := false,
      unlockSoftLog := false }
  else
    let u := worker_unlock lk
    { worker := { w with has_lock := false }, lock := u.1,
      broadcastAcceptAvailable := true, unlockSoftLog := u.2 }

/-- Total worker count computed by `kore_worker_init` (worker.c 111-115):
a configured count of 0 means the detected cpu count, and two slots are
added for the key-manager and ACME siblings. -/
def totalWorkerCount (worker_count_configured cpu_count : Nat) : Nat :=
  (if worker_count_configured = 0 then cpu_count else worker_count_configured) + 2

/-- The network-worker spawn loop of `kore_worker_init` (worker.c
146-153), by remaining iteration count: at each step the cpu index is
reset to 0 when it reaches `cpu_count`, then `(slot, id, cpu)` is spawned
and both `id` and `cpu` are post-incremented. -/
def spawnLoop (cpu_count : Nat) : Nat → Nat → Nat → Nat → List (Nat × Nat × Nat)
  | 0, _, _, _ => []
  | Nat.succ n, idx, id, cpu =>
    let cpu2 := if cpu_count ≤ cpu then 0 else cpu
    (idx, id, cpu2) :: spawnLoop cpu_count n (idx + 1) (id + 1) (cpu2 + 1)

/-- All `(slot, id, cpu)` spawns performed by `kore_worker_init`
(worker.c 146-167) in order: the network workers from slot
`KORE_WORKER_BASE` with ids from 1 and cpus from 1, then, when the
key-manager is active, the ACME sibling (only with a provider) and the
key-manager, both on cpu 0. -/
def kore_worker_init_spawns (worker_count_configured cpu_count : Nat)
    (keymgr_active acme_provider : Bool) : List (Nat × Nat × Nat) :=
  let total := totalWorkerCount worker_count_configured cpu_count
  let net := spawnLoop cpu_count (total - KORE_WORKER_BASE) KORE_WORKER_BASE 1 1
  if keymgr_active = true then
    if acme_provider = true then
      net ++ [(KORE_WORKER_ACME_IDX, KORE_WORKER_ACME, 0),
              (KORE_WORKER_KEYMGR_IDX, KORE_WORKER_KEYMGR, 0)]
    else
      net ++ [(KORE_WORKER_KEYMGR_IDX, KORE_WORKER_KEYMGR, 0)]
  else net

/-- The `netwait` computation of `kore_worker_entry` (worker.c 465-478):
start from the time until the next timer (`none` models
`KORE_WAIT_INFINITE`); only when no timer is pending are the conditions
consulted, as consecutive overwrites: a pending signal sets 10, in-flight
HTTP requests then set 100, a runnable coroutine then sets 10. -/
def netwaitCompute (timerNext : Option Nat) (sigPending : Bool)
    (http_request_count : Nat) (coroPending : Bool) : Option Nat :=
  match timerNext with
  | some v => some v
  | none =>
    let n1 : Option Nat := if sigPending = true then some 10 else none
    let n2 : Option Nat := if 0 < http_request_count then some 100 else n1
    if coroPending = true then some 10 else n2

/-- The `netwait` rule as the claim words it (written from the spec, for
comparison with `netwaitCompute`): the milliseconds until the next timer,
clamped to 10 when a signal is pending, to 100 when any HTTP request is
in flight, to 10 when a cooperative task is runnable; infinite only when
no timer is pending and none of the conditions hold. -/
def netwaitClaimed (timerNext : Option Nat) (sigPending : Bool)
    (http_request_count : Nat) (coroPending : Bool) : Option Nat :=
  let clampTo : Option Nat → Nat → Option Nat := fun v b =>
    match v with
    | none => some b
    | some x => some (min x b)
  let n1 := if sigPending = true then clampTo timerNext 10 else timerNext
  let n2 := if 0 < http_request_count then clampTo n1 100 else n1
  if coroPending = true then clampTo n2 10 else n2

/-- Outcome of `worker_entropy_recv`: how many warning lines were logged,
whether `RAND_seed` ran, and with what length. -/
structure EntropyRecvResult where
  warnings : Nat
  seeded : Bool
  seedLength : Nat
deriving Repr, DecidableEq

/-- `worker_entropy_recv` (worker.c 846-857): log one warning when the
message length differs from 1024, then unconditionally call `RAND_poll`
and `RAND_seed(data, msg->length)`. -/
def worker_entropy_recv (msgLength : Nat) : EntropyRecvResult :=
  { warnings := if msgLength ≠ 1024 then 1 else 0,
    seeded := true,
    seedLength := msgLength }

/-- The keymgr message header `struct kore_x509_msg` as a worker reads
it: the fixed-width domain slot (a list of `KORE_DOMAINNAME_LEN + 1`
bytes) and the declared payload length. -/
structure X509Msg where
  domain : List Nat
  data_len : Nat
deriving Repr, DecidableEq

/-- A configured server as the domain-lookup loop sees it: its TLS flag
and the list of its domain names (byte strings). -/
structure KoreServer where
  tls : Bool
  domains : List (List Nat)
deriving Repr, DecidableEq

/-- The C string held in a fixed-width slot: the bytes before the first
NUL. -/
def cstr (bs : List Nat) : List Nat := bs.takeWhile (fun b => b ≠ 0)

/-- The inner loop of the verify routine over one server's domain list:
first domain comparing `strcmp`-equal to the requested name. -/
def domainScan (doms : List (List Nat)) (name : List Nat) : Option (List Nat) :=
  match doms with
  | [] => none
  | d :: rest => if d = name then some d else domainScan rest name

/-- The domain lookup of `kore_worker_keymgr_response_verify` (worker.c
641-654): walk the servers in order, skip non-TLS ones, and stop at the
first whose domain list contains the requested name. -/
def domainLookup (servers : List KoreServer) (name : List Nat) : Option (List Nat) :=
  match servers with
  | [] => none
  | s :: rest =>
    if s.tls = true then
      match domainScan s.domains name with
      | some d => some d
      | none => domainLookup rest name
    else domainLookup rest name

/-- Outcome of `kore_worker_keymgr_response_verify`: whether it returned
`KORE_RESULT_OK`, how many warning lines were logged, and the domain
written through `out` on success. -/
structure VerifyResult where
  ok : Bool
  warnings : Nat
  out : Option (List Nat)
deriving Repr, DecidableEq

/-- `kore_worker_keymgr_response_verify` (worker.c 609-665): reject with
one warning when the message is shorter than the fixed header, when the
total length differs from header plus declared `data_len`, when the byte
at index `KORE_DOMAINNAME_LEN` of the domain slot is not NUL, or (when a
domain is requested) when no TLS server knows the named domain. -/
def kore_worker_keymgr_response_verify (msgLength : Nat) (req : X509Msg)
    (servers : List KoreServer) (wantOut : Bool) : VerifyResult :=
  if msgLength < X509_MSG_HDR_SIZE then
    { ok := false, warnings := 1, out := none }
  else if msgLength ≠ X509_MSG_HDR_SIZE + req.data_len then
    { ok := false, warnings := 1, out := none }
  else if req.domain.getD KORE_DOMAINNAME_LEN 1 ≠ 0 then
    { ok := false, warnings := 1, out := none }
  else if wantOut = false then
    { ok := true, warnings := 0, out := none }
  else
    match domainLookup servers (cstr req.domain) with
    | some d => { ok := true, warnings := 0, out := some d }
    | none => { ok := false, warnings := 1, out := none }

/-- The domain-state mutation performed by `worker_keymgr_response` after
successful verification, by message id. -/
inductive KeymgrAction where
  | tlsinit : List Nat → KeymgrAction
  | crlAdd : List Nat → KeymgrAction
  | acmeSetCert : List Nat → KeymgrAction
  | acmeClearCert : List Nat → KeymgrAction
  | unknownRequest : KeymgrAction
deriving Repr, DecidableEq

/-- `worker_keymgr_response` (worker.c 859-906): verify the payload (with
a domain lookup) and return without any action when verification fails;
otherwise dispatch on the message id. -/
def worker_keymgr_response (msgId msgLength : Nat) (req : X509Msg)
    (servers : List KoreServer) : Option KeymgrAction :=
  let v := kore_worker_keymgr_response_verify msgLength req servers true
  if v.ok = false then none
  else
    match v.out with
    | none => none
    | some dom =>
      if msgId = KORE_MSG_CERTIFICATE then some (KeymgrAction.tlsinit dom)
      else if msgId = KORE_MSG_CRL then some (KeymgrAction.crlAdd dom)
      else if msgId = KORE_ACME_CHALLENGE_SET_CERT then
        some (KeymgrAction.acmeSetCert dom)
      else if msgId = KORE_ACME_CHALLENGE_CLEAR_CERT then
        some (KeymgrAction.acmeClearCert dom)
      else some KeymgrAction.unknownRequest

/-- A worker record (`struct kore_worker`) as the supervisor sees it. -/
structure KoreWorker where
  id : Nat
  cpu : Nat
  pid : Nat
  has_lock : Bool
  running : Bool
  restarted : Bool
deriving Repr, DecidableEq

/-- The crash policy `worker_policy` (restart or terminate). -/
inductive WorkerPolicy where
  | restart
  | terminate
deriving Repr, DecidableEq

/-- Supervisor-visible state: the shared lock region, the worker record
table, the no-lock flag (0 in the supervisor after init), the crash
policy, and whether SIGTERM has been raised on self. -/
structure SupervisorState where
  accept_lock : WLock
  workers : List KoreWorker
  worker_no_lock : Bool
  worker_policy : WorkerPolicy
  sigtermRaised : Bool
deriving Repr, DecidableEq

/-- The field updates of `kore_worker_spawn` (worker.c 170-198) on a
worker record, as seen by the supervisor; `newPid` stands for the pid
returned by `fork`. -/
def kore_worker_spawn (kw : KoreWorker) (id cpu newPid : Nat) : KoreWorker :=
  { kw with
    id := id
    cpu := cpu
    has_lock := false
    running := true
    pid := newPid }

/-- The first worker record whose pid matches, mirroring the reaper's
scan order. -/
def findWorker (pid : Nat) : List KoreWorker → Option KoreWorker
  | [] => none
  | kw :: rest => if kw.pid = pid then some kw else findWorker pid rest

/-- The slot scan of `worker_reaper` (worker.c 679-757): skip records
with a different pid; at the first match mark it not running, and then:
on a clean exit just clear the pid; for the key-manager or ACME sibling
clear the pid and raise SIGTERM; otherwise forcibly unlock when the dead
pid is the recorded lock holder and locking is enabled, then either stop
(terminate policy, pid cleared, SIGTERM raised) or re-spawn the slot with
the same id and cpu and `restarted` set.  Returns the updated records,
the updated lock region, and whether SIGTERM was raised.  The Linux
seccomp-trace early return, which fires only for ptrace stops and not for
real exits, is omitted. -/
def reaperScan (lk : WLock) (no_lock : Bool) (policy : WorkerPolicy)
    (pid : Nat) (cleanExit : Bool) (newPid : Nat) :
    List KoreWorker → List KoreWorker × WLock × Bool
  | [] => ([], lk, false)
  | kw :: rest =>
    if kw.pid = pid then
      let kw1 := { kw with running := false }
      if cleanExit = true then
        ({ kw1 with pid := 0 } :: rest, lk, false)
      else if kw1.id = KORE_WORKER_KEYMGR ∨ kw1.id = KORE_WORKER_ACME then
        ({ kw1 with pid := 0 } :: rest, lk, true)
      else
        let lk1 := if kw1.pid = lk.current ∧ no_lock = false then
          (worker_unlock lk).1 else lk
        if policy = WorkerPolicy.terminate then
          ({ kw1 with pid := 0 } :: rest, lk1, true)
        else
          ({ kore_worker_spawn kw1 kw1.id kw1.cpu newPid with
             restarted := true } :: rest, lk1, false)
    else
      let t := reaperScan lk no_lock policy pid cleanExit newPid rest
      (kw :: t.1, t.2.1, t.2.2)

/-- `worker_reaper` (worker.c 667-758) acting on supervisor state:
`cleanExit` is `WIFEXITED(status) && WEXITSTATUS(status) == 0`. -/
def worker_reaper (st : SupervisorState) (pid : Nat) (cleanExit : Bool)
    (newPid : Nat) : SupervisorState :=
  let t := reaperScan st.accept_lock st.worker_no_lock st.worker_policy
    pid cleanExit newPid st.workers
  { st with
    workers := t.1
    accept_lock := t.2.1
    sigtermRaised := st.sigtermRaised || t.2.2 }

/-- A sequence of reap events `(pid, cleanExit, newPid)` applied in
order through `worker_reaper`. -/
def runReapEvents (st : SupervisorState) : List (Nat × Bool × Nat) → SupervisorState
  | [] => st
  | e :: rest => runReapEvents (worker_reaper st e.1 e.2.1 e.2.2) rest

/- ------------------------------------------------------------------ -/
/- Helper lemmas shared between claims.                                -/
/- ------------------------------------------------------------------ -/

theorem worker_unlock_fst (lk : WLock) :
    (worker_unlock lk).1 = { lock := false, current := 0 } := by
  cases h : lk.lock <;> simp [worker_unlock, h]

theorem domainScan_isSome_iff (doms : List (List Nat)) (name : List Nat) :
    (domainScan doms name).isSome = true ↔ name ∈ doms := by
  induction doms with
  | nil => simp [domainScan]
  | cons d rest ih =>
    by_cases hd : d = name
    · subst hd
      simp [domainScan]
    · simp only [domainScan]
      rw [if_neg hd, ih]
      constructor
      · intro h
        exact List.mem_cons_of_mem d h
      · intro h
        cases List.mem_cons.mp h with
        | inl h2 => exact absurd h2.symm hd
        | inr h2 => exact h2

theorem domainLookup_isSome_iff (servers : List KoreServer) (name : List Nat) :
    (domainLookup servers name).isSome = true ↔
      ∃ s ∈ servers, s.tls = true ∧ name ∈ s.domains := by
  induction servers with
  | nil => simp [domainLookup]
  | cons s rest ih =>
    cases ht : s.tls with
    | true =>
      simp only [domainLookup]
      rw [ht, if_pos rfl]
      cases hscan : domainScan s.domains name with
      | some d =>
        have hmem : name ∈ s.domains := by
          apply (domainScan_isSome_iff s.domains name).mp
          rw [hscan]
          rfl
        constructor
        · intro _
          exact ⟨s, List.mem_cons_self s rest, ht, hmem⟩
        · intro _
          rfl
      | none =>
        show (domainLookup rest name).isSome = true ↔
          ∃ s2 ∈ s :: rest, s2.tls = true ∧ name ∈ s2.domains
        rw [ih]
        have hnmem : ¬ name ∈ s.domains := by
          intro hmem
          have h2 := (domainScan_isSome_iff s.domains name).mpr hmem
          rw [hscan] at h2
          exact absurd h2 (by decide)
        constructor
        · rintro ⟨s2, hs2, hp⟩
          exact ⟨s2, List.mem_cons_of_mem s hs2, hp⟩
        · rintro ⟨s2, hs2, htls, hmem⟩
          cases List.mem_cons.mp hs2 with
          | inl he =>
            subst he
            exact absurd hmem hnmem
          | inr he => exact ⟨s2, he, htls, hmem⟩
    | false =>
      simp only [domainLookup]
      rw [ht, if_neg (by decide : ¬ (false = true)), ih]
      constructor
      · rintro ⟨s2, hs2, hp⟩
        exact ⟨s2, List.mem_cons_of_mem s hs2, hp⟩
      · rintro ⟨s2, hs2, htls, hmem⟩
        cases List.mem_cons.mp hs2 with
        | inl he =>
          subst he
          rw [ht] at htls
          exact absurd htls (by decide)
        | inr he => exact ⟨s2, he, htls, hmem⟩

theorem reaperScan_map_idcpu (lk : WLock) (no_lock : Bool)
    (policy : WorkerPolicy) (pid cleanExit_newPid : Nat) (ce : Bool)
    (ws : List KoreWorker) :
    ((reaperScan lk no_lock policy pid ce cleanExit_newPid ws).1).map
        (fun w => (w.id, w.cpu)) =
      ws.map (fun w => (w.id, w.cpu)) := by
  induction ws with
  | nil => rfl
  | cons kw rest ih =>
    by_cases hp : kw.pid = pid
    · cases ce with
      | true => simp [reaperScan, hp]
      | false =>
        by_cases hid : kw.id = KORE_WORKER_KEYMGR ∨ kw.id = KORE_WORKER_ACME
        · simp [reaperScan, hp, hid]
        · cases hpol : policy with
          | terminate => simp [reaperScan, hp, hid, kore_worker_spawn]
          | restart => simp [reaperScan, hp, hid, kore_worker_spawn]
    · simp [reaperScan, hp, ih]

theorem reaperScan_lock_release (lk : WLock) (policy : WorkerPolicy)
    (pid newPid : Nat) (ws : List KoreWorker) (kw : KoreWorker)
    (hfind : findWorker pid ws = some kw)
    (hk1 : kw.id ≠ KORE_WORKER_KEYMGR) (hk2 : kw.id ≠ KORE_WORKER_ACME)
    (hcur : lk.current = pid) :
    (reaperScan lk false policy pid false newPid ws).2.1 =
      { lock := false, current := 0 } := by
  induction ws with
  | nil => simp [findWorker] at hfind
  | cons w rest ih =>
    by_cases hp : w.pid = pid
    · have hw : w = kw := by
        simp [findWorker, hp] at hfind
        exact hfind
      subst hw
      have hid : ¬ (w.id = KORE_WORKER_KEYMGR ∨ w.id = KORE_WORKER_ACME) := by
        intro h
        cases h with
        | inl h => exact hk1 h
        | inr h => exact hk2 h
      cases hpol : policy with
      | terminate =>
        simp [reaperScan, hp, hid, hcur, worker_unlock_fst]
      | restart =>
        simp [reaperScan, hp, hid, hcur, worker_unlock_fst]
    · have hfind2 : findWorker pid rest = some kw := by
        simpa [findWorker, hp] using hfind
      simp [reaperScan, hp, ih hfind2]

theorem verify_ok_iff (msgLength : Nat) (req : X509Msg)
    (servers : List KoreServer) :
    (kore_worker_keymgr_response_verify msgLength req servers true).ok = true ↔
      (X509_MSG_HDR_SIZE ≤ msgLength ∧
       msgLength = X509_MSG_HDR_SIZE + req.data_len ∧
       req.domain.getD KORE_DOMAINNAME_LEN 1 = 0 ∧
       ∃ s ∈ servers, s.tls = true ∧ cstr req.domain ∈ s.domains) := by
  by_cases h1 : msgLength < X509_MSG_HDR_SIZE
  · unfold kore_worker_keymgr_response_verify
    rw [if_pos h1]
    constructor
    · intro h
      exact absurd h (by decide)
    · rintro ⟨hle, -, -, -⟩
      omega
  · by_cases h2 : msgLength = X509_MSG_HDR_SIZE + req.data_len
    · by_cases h3 : req.domain.getD KORE_DOMAINNAME_LEN 1 = 0
      · unfold kore_worker_keymgr_response_verify
        rw [if_neg h1, if_neg (not_not_intro h2), if_neg (not_not_intro h3),
          if_neg (by decide : ¬ ((true : Bool) = false))]
        cases hlook : domainLookup servers (cstr req.domain) with
        | some d =>
          constructor
          · intro _
            refine ⟨by omega, h2, h3, ?_⟩
            apply (domainLookup_isSome_iff servers (cstr req.domain)).mp
            rw [hlook]
            rfl
          · intro _
            rfl
        | none =>
          constructor
          · intro h
            exact Bool.noConfusion h
          · rintro ⟨-, -, -, hex⟩
            have h4 := (domainLookup_isSome_iff servers (cstr req.domain)).mpr hex
            rw [hlook] at h4
            exact Bool.noConfusion h4
      · unfold kore_worker_keymgr_response_verify
        rw [if_neg h1, if_neg (not_not_intro h2), if_pos h3]
        constructor
        · intro h
          exact absurd h (by decide)
        · rintro ⟨-, -, h, -⟩
          exact absurd h h3
    · unfold kore_worker_keymgr_response_verify
      rw [if_neg h1, if_pos h2]
      constructor
      · intro h
        exact absurd h (by decide)
      · rintro ⟨-, h, -, -⟩
        exact absurd h h2

theorem verify_fail_warnings (msgLength : Nat) (req : X509Msg)
    (servers : List KoreServer) (wantOut : Bool)
    (h : (kore_worker_keymgr_response_verify msgLength req servers wantOut).ok
      = false) :
    (kore_worker_keymgr_response_verify msgLength req servers wantOut).warnings
      = 1 := by
  unfold kore_worker_keymgr_response_verify at h ⊢
  split_ifs at h ⊢ with h1 h2 h3 h4
  · rfl
  · rfl
  · rfl
  · cases hlook : domainLookup servers (cstr req.domain) with
    | some d =>
      rw [hlook] at h
      exact Bool.noConfusion h
    | none => rfl

theorem response_none_of_fail (msgId msgLength : Nat) (req : X509Msg)
    (servers : List KoreServer)
    (h : (kore_worker_keymgr_response_verify msgLength req servers true).ok
      = false) :
    worker_keymgr_response msgId msgLength req servers = none := by
  simp [worker_keymgr_response, h]

/- ------------------------------------------------------------------ -/
/- Claim theorems.                                                     -/
/- ------------------------------------------------------------------ -/

/-- C1 counterexample: with a configured pool size of 2 (at or below the
solo threshold of 3) on a 4-cpu machine the total worker count is 4, and
a fresh network worker obtaining the accept lock does call
`worker_trylock`, i.e. a compare-and-swap on the shared lock word is
attempted — contradicting the claim that for every pool size at or below
three no worker ever calls `try_acquire`. -/
theorem c1_counterexample :
    (worker_acceptlock_obtain (totalWorkerCount 2 4) false
      { has_lock := false, pid := 100 } { lock := false, current := 0 }
      0 512 0 1000).casAttempted = true := by decide

/-- C1 (amended): the solo fast-path requires the total worker count
(configured pool size plus the two reserved slots) to equal
`WORKER_SOLO_COUNT` = 3, i.e. a configured pool size of 1; in that case
every obtain returns 1 with `has_lock` true, never attempts the
compare-and-swap, and leaves the shared lock region untouched. -/
theorem c1_amended (cpu_count : Nat) (no_lock : Bool) (w : WorkerLocal)
    (lk : WLock) (ac mc hc hq : Nat) :
    (worker_acceptlock_obtain (totalWorkerCount 1 cpu_count) no_lock
        w lk ac mc hc hq).r = true ∧
    (worker_acceptlock_obtain (totalWorkerCount 1 cpu_count) no_lock
        w lk ac mc hc hq).worker.has_lock = true ∧
    (worker_acceptlock_obtain (totalWorkerCount 1 cpu_count) no_lock
        w lk ac mc hc hq).casAttempted = false ∧
    (worker_acceptlock_obtain (totalWorkerCount 1 cpu_count) no_lock
        w lk ac mc hc hq).lock = lk := by
  have h3 : totalWorkerCount 1 cpu_count = 3 := by simp [totalWorkerCount]
  rw [h3]
  cases hw : w.has_lock <;>
    simp [worker_acceptlock_obtain, WORKER_SOLO_COUNT, hw]

/-- C2 counterexample: with `worker_count = 2`, no key-manager, and two
cpus, `kore_worker_init` spawns the two network workers as slots 2 and 3
with ids 1 and 2 on cpus 1 and 0 — not on cpus 0 and 1 as claimed,
because the round-robin starts at cpu index 1. -/
theorem c2_counterexample :
    kore_worker_init_spawns 2 2 false false = [(2, 1, 1), (3, 2, 0)] ∧
    kore_worker_init_spawns 2 2 false false ≠ [(2, 1, 0), (3, 2, 1)] := by
  decide

/-- C2 (amended): with `worker_count = 2`, no key-manager, and two cpus,
exactly two network workers are spawned with ids 1 and 2, assigned
round-robin starting at cpu index 1: id 1 on cpu 1 and id 2 on cpu 0. -/
theorem c2_amended :
    (kore_worker_init_spawns 2 2 false false).length = 2 ∧
    (kore_worker_init_spawns 2 2 false false).map (fun t => t.2.1) = [1, 2] ∧
    (kore_worker_init_spawns 2 2 false false).map (fun t => t.2.2) = [1, 0] := by
  decide

/-- C3 counterexample: an `ENTROPY_RESP` of length 16 (≠ 1024) is logged
with one warning but is still acted upon — the worker's RNG is seeded
from the 16-byte payload — contradicting the claim that such a message
is dropped and not acted upon. -/
theorem c3_counterexample :
    (worker_entropy_recv 16).warnings = 1 ∧
    (worker_entropy_recv 16).seeded = true ∧
    (worker_entropy_recv 16).seedLength = 16 := by decide

/-- C3 (amended): an `ENTROPY_RESP` whose length is not exactly 1024
bytes produces exactly one warning log line but is not dropped: the
worker's RNG is still seeded from the payload with the message's actual
length. -/
theorem c3_amended (msgLength : Nat) (h : msgLength ≠ 1024) :
    (worker_entropy_recv msgLength).warnings = 1 ∧
    (worker_entropy_recv msgLength).seeded = true ∧
    (worker_entropy_recv msgLength).seedLength = msgLength := by
  simp [worker_entropy_recv, h]

/-- C3 amended witness at length 33. -/
theorem c3_amended_witness :
    (worker_entropy_recv 33).warnings = 1 ∧
    (worker_entropy_recv 33).seeded = true ∧
    (worker_entropy_recv 33).seedLength = 33 :=
  c3_amended 33 (by decide)

/-- C4 counterexample: with the next timer 5000 ms away and one HTTP
request in flight, the code waits the full 5000 ms while the claimed
clamping rule would wait at most 100 ms — the clamps are in fact applied
only when no timer is pending. -/
theorem c4_counterexample :
    netwaitCompute (some 5000) false 1 false = some 5000 ∧
    netwaitClaimed (some 5000) false 1 false = some 100 ∧
    netwaitCompute (some 5000) false 1 false ≠
      netwaitClaimed (some 5000) false 1 false := by decide

/-- C4 (amended): `netwait` equals the milliseconds until the next timer
whenever a timer is pending, with no clamping at all; only when no timer
is pending do the conditions apply, as overwrites in program order so the
last applicable one wins: a runnable coroutine gives 10 ms, else in-flight
HTTP requests give 100 ms, else a pending signal gives 10 ms, else the
wait is infinite.  In particular the wait is infinite exactly when no
timer is pending and none of the three conditions hold. -/
theorem c4_amended (t : Option Nat) (s : Bool) (n : Nat) (c : Bool) :
    netwaitCompute t s n c =
      match t with
      | some v => some v
      | none =>
        if c = true then some 10
        else if 0 < n then some 100
        else if s = true then some 10
        else none := by
  cases t with
  | some v => simp [netwaitCompute]
  | none =>
    cases s <;> cases c <;> by_cases hn : 0 < n <;>
      simp [netwaitCompute, hn]

/-- C5: keymgr payload verification (with domain lookup, as the response
handler invokes it) accepts exactly when the message is at least the
fixed header long, the total length equals header plus declared
`data_len`, the fixed-width domain slot is NUL-terminated (the final byte
of the slot, index `KORE_DOMAINNAME_LEN`, is NUL — the check at worker.c
630), and the named domain belongs to a TLS-enabled server; and every
rejected message produces exactly one warning line while the response
handler drops it without mutating any domain state. -/
theorem c5_keymgr_verify (msgId msgLength : Nat) (req : X509Msg)
    (servers : List KoreServer) :
    ((kore_worker_keymgr_response_verify msgLength req servers true).ok = true ↔
      (X509_MSG_HDR_SIZE ≤ msgLength ∧
       msgLength = X509_MSG_HDR_SIZE + req.data_len ∧
       req.domain.getD KORE_DOMAINNAME_LEN 1 = 0 ∧
       ∃ s ∈ servers, s.tls = true ∧ cstr req.domain ∈ s.domains)) ∧
    ((kore_worker_keymgr_response_verify msgLength req servers true).ok = false →
      (kore_worker_keymgr_response_verify msgLength req servers true).warnings = 1 ∧
      worker_keymgr_response msgId msgLength req servers = none) := by
  refine ⟨verify_ok_iff msgLength req servers, fun h => ⟨?_, ?_⟩⟩
  · exact verify_fail_warnings msgLength req servers true h
  · exact response_none_of_fail msgId msgLength req servers h

/-- C5 witness: a 10-byte message is shorter than the header, so with no
servers configured verification fails, logs one warning, and the
certificate handler drops the message without any action. -/
theorem c5_keymgr_verify_witness :
    (kore_worker_keymgr_response_verify 10
      { domain := List.replicate 256 0, data_len := 0 } [] true).warnings = 1 ∧
    worker_keymgr_response 4 10
      { domain := List.replicate 256 0, data_len := 0 } [] = none :=
  (c5_keymgr_verify 4 10 { domain := List.replicate 256 0, data_len := 0 } []).2
    (by decide)

/-- C6: if a network worker exits uncleanly while its pid is recorded as
the accept-lock holder, then after the supervisor's reap of that pid both
the lock word and `accept_lock.current` are 0 — the supervisor forcibly
releases the lock within that single reap. -/
theorem c6_reaper_releases_lock (st : SupervisorState) (pid newPid : Nat)
    (kw : KoreWorker)
    (hfind : findWorker pid st.workers = some kw)
    (hk1 : kw.id ≠ KORE_WORKER_KEYMGR) (hk2 : kw.id ≠ KORE_WORKER_ACME)
    (hnl : st.worker_no_lock = false)
    (hcur : st.accept_lock.current = pid) :
    (worker_reaper st pid false newPid).accept_lock.lock = false ∧
    (worker_reaper st pid false newPid).accept_lock.current = 0 := by
  have h := reaperScan_lock_release st.accept_lock st.worker_policy pid newPid
    st.workers kw hfind hk1 hk2 hcur
  simp [worker_reaper, hnl, h]

/-- C6 witness: a one-slot pool whose worker (id 3, pid 42) holds the
lock and is reaped after an unclean exit. -/
theorem c6_reaper_releases_lock_witness :
    (worker_reaper
      { accept_lock := { lock := true, current := 42 },
        workers := [{ id := 3, cpu := 1, pid := 42, has_lock := true,
                      running := true, restarted := false }],
        worker_no_lock := false, worker_policy := WorkerPolicy.restart,
        sigtermRaised := false } 42 false 77).accept_lock.lock = false ∧
    (worker_reaper
      { accept_lock := { lock := true, current := 42 },
        workers := [{ id := 3, cpu := 1, pid := 42, has_lock := true,
                      running := true, restarted := false }],
        worker_no_lock := false, worker_policy := WorkerPolicy.restart,
        sigtermRaised := false } 42 false 77).accept_lock.current = 0 :=
  c6_reaper_releases_lock _ 42 77
    { id := 3, cpu := 1, pid := 42, has_lock := true, running := true,
      restarted := false }
    (by decide) (by decide) (by decide) rfl rfl

/-- C7: for a worker actually holding the accept lock (so arbitration is
active: the pool is not at the solo count and locking is not disabled),
the per-round release check releases exactly when active connections have
reached `worker_max_connections` or in-flight HTTP requests have reached
`http_request_limit`; on release `has_lock` is cleared, the lock word and
holder pid are zeroed, and `ACCEPT_AVAILABLE` is broadcast to all
workers; otherwise the worker, the lock region and the broadcast flag are
all unchanged. -/
theorem c7_release_iff (wc : Nat) (nl : Bool) (w : WorkerLocal) (lk : WLock)
    (ac mc hc hq : Nat)
    (hwc : wc ≠ WORKER_SOLO_COUNT) (hnl : nl = false)
    (hhas : w.has_lock = true) :
    ((mc ≤ ac ∨ hq ≤ hc) →
      (worker_acceptlock_release wc nl w lk ac mc hc hq).worker.has_lock = false ∧
      (worker_acceptlock_release wc nl w lk ac mc hc hq).lock.lock = false ∧
      (worker_acceptlock_release wc nl w lk ac mc hc hq).lock.current = 0 ∧
      (worker_acceptlock_release wc nl w lk ac mc hc hq).broadcastAcceptAvailable
        = true) ∧
    ((ac < mc ∧ hc < hq) →
      (worker_acceptlock_release wc nl w lk ac mc hc hq).worker = w ∧
      (worker_acceptlock_release wc nl w lk ac mc hc hq).lock = lk ∧
      (worker_acceptlock_release wc nl w lk ac mc hc hq).broadcastAcceptAvailable
        = false) := by
  subst hnl
  constructor
  · intro hcond
    have hnot : ¬ (ac < mc ∧ hc < hq) := by
      intro h
      cases hcond with
      | inl h2 => omega
      | inr h2 => omega
    simp [worker_acceptlock_release, hwc, hhas, hnot, worker_unlock_fst]
  · intro hcond
    simp [worker_acceptlock_release, hwc, hhas, hcond]

/-- C7 witness: a 4-worker pool whose lock holder reaches the connection
ceiling (512 of 512) and releases. -/
theorem c7_release_iff_witness :
    (worker_acceptlock_release 4 false { has_lock := true, pid := 42 }
      { lock := true, current := 42 } 512 512 0 1000).worker.has_lock = false ∧
    (worker_acceptlock_release 4 false { has_lock := true, pid := 42 }
      { lock := true, current := 42 } 512 512 0 1000).lock.lock = false ∧
    (worker_acceptlock_release 4 false { has_lock := true, pid := 42 }
      { lock := true, current := 42 } 512 512 0 1000).lock.current = 0 ∧
    (worker_acceptlock_release 4 false { has_lock := true, pid := 42 }
      { lock := true, current := 42 } 512 512 0 1000).broadcastAcceptAvailable
      = true :=
  (c7_release_iff 4 false { has_lock := true, pid := 42 }
    { lock := true, current := 42 } 512 512 0 1000
    (by decide) rfl rfl).1 (Or.inl (by decide))

/-- C8: across any sequence of reap events — crashes with restart or
terminate handling, clean exits, key-manager losses — every worker slot
keeps its logical id and its cpu: the supervisor re-spawns a crashed slot
with exactly the id and cpu it had before. -/
theorem c8_slots_stable (events : List (Nat × Bool × Nat))
    (st : SupervisorState) :
    (runReapEvents st events).workers.map (fun w => (w.id, w.cpu)) =
      st.workers.map (fun w => (w.id, w.cpu)) := by
  induction events generalizing st with
  | nil => rfl
  | cons e rest ih =>
    have hstep : (worker_reaper st e.1 e.2.1 e.2.2).workers.map
        (fun w => (w.id, w.cpu)) = st.workers.map (fun w => (w.id, w.cpu)) := by
      simp [worker_reaper, reaperScan_map_idcpu]
    calc (runReapEvents st (e :: rest)).workers.map (fun w => (w.id, w.cpu))
        = (runReapEvents (worker_reaper st e.1 e.2.1 e.2.2) rest).workers.map
            (fun w => (w.id, w.cpu)) := rfl
      _ = (worker_reaper st e.1 e.2.1 e.2.2).workers.map
            (fun w => (w.id, w.cpu)) := ih _
      _ = st.workers.map (fun w => (w.id, w.cpu)) := hstep

/-- C9: from any lock-region state, `try_acquire` immediately followed by
`release` performed by the same process leaves the lock word at 0. -/
theorem c9_trylock_unlock (lk : WLock) (pid : Nat) :
    ((worker_unlock (worker_trylock pid lk).2).1).lock = false := by
  have h := worker_unlock_fst (worker_trylock pid lk).2
  rw [h]

/-- C10: obtaining the accept lock while `has_lock` is already 1 is an
idempotent no-op: the call returns 1, performs no compare-and-swap on the
shared lock word, and leaves both the worker and the lock region exactly
as they were. -/
theorem c10_obtain_idempotent (wc : Nat) (nl : Bool) (w : WorkerLocal)
    (lk : WLock) (ac mc hc hq : Nat) (hhas : w.has_lock = true) :
    worker_acceptlock_obtain wc nl w lk ac mc hc hq =
      { r := true, worker := w, lock := lk, casAttempted := false } := by
  simp [worker_acceptlock_obtain, hhas]

/-- C10 witness: a worker already holding the lock in a 4-worker pool. -/
theorem c10_obtain_idempotent_witness :
    worker_acceptlock_obtain 4 false { has_lock := true, pid := 9 }
      { lock := true, current := 9 } 0 512 0 1000 =
      { r := true, worker := { has_lock := true, pid := 9 },
        lock := { lock := true, current := 9 }, casAttempted := false } :=
  c10_obtain_idempotent 4 false { has_lock := true, pid := 9 }
    { lock := true, current := 9 } 0 512 0 1000 rfl

end Kore
